import Mathlib

/-!
# GPU fence, compositing-scene flags and URL-pattern component compilation

A shallow embedding of

* `Source/WebCore/platform/graphics/egl/GLFenceEGL.cpp` (the EGL fence),
* `Source/WebKit/WebProcess/WebPage/CoordinatedGraphics/CoordinatedGraphicsScene.h`
  (the inline accessors of the compositing scene),
* `Source/WebCore/Modules/url-pattern/URLPatternComponent.cpp` (`compile`).

The EGL/GL driver is the environment of the fence code.  Every call the code
makes into it is appended to a log (`List DriverCall`), and the values the
driver hands back (a sync handle, a looked-up function pointer, a duplicated
file descriptor) are read from an arbitrary `EGLDriver`, whose answers may
depend on the calls made so far.  The two preprocessor switches of the file
(`EGL_EGLEXT_PROTOTYPES`, `OS(UNIX)`) are fields of `BuildConfig`.
-/

namespace WebCore

/-! ## EGL types and constants (Khronos headers `EGL/egl.h`, `EGL/eglext.h`) -/

abbrev EGLenum := Nat
/-- The type `EGLAttrib` is `intptr_t`. -/
abbrev EGLAttrib := Int
/-- The type `EGLint` is a 32-bit signed integer. -/
abbrev EGLint := Int
/-- The type `EGLSync` is a pointer; it is modelled by its address. -/
abbrev EGLSync := Nat
abbrev EGLSyncKHR := Nat
abbrev EGLDisplay := Nat
abbrev EGLTime := Nat

/-- The constant `EGL_NO_SYNC` is `EGL_CAST(EGLSync, 0)`, the null pointer. -/
def EGL_NO_SYNC : EGLSync := 0
def EGL_SYNC_FENCE_KHR : EGLenum := 0x30F9
def EGL_SYNC_NATIVE_FENCE_ANDROID : EGLenum := 0x3144
def EGL_SYNC_NATIVE_FENCE_FD_ANDROID : EGLAttrib := 0x3145
def EGL_NONE : EGLAttrib := 0x3038
def EGL_FOREVER : EGLTime := 0xFFFFFFFFFFFFFFFF
def EGL_FOREVER_KHR : EGLTime := 0xFFFFFFFFFFFFFFFF

/-- Conversion `EGLAttrib -> EGLint` performed by the lambda
`[] (EGLAttrib value) { return value; }` whose result type is `EGLint`:
the value is reduced modulo `2^32` into the signed 32-bit range. -/
def toEGLint (value : EGLAttrib) : EGLint :=
  (value + 2 ^ 31) % 2 ^ 32 - 2 ^ 31

/-- The expression `v.isEmpty() ? nullptr : v.data()`: `none` is the null pointer. -/
def dataOrNull {α : Type} (v : List α) : Option (List α) :=
  if v.isEmpty then none else some v

/-! ## The driver boundary -/

/-- One call across the EGL/GL boundary, with its arguments.
`eglGetProcAddress` is the entry-point lookup; every other constructor is a
call through an entry point. -/
inductive DriverCall where
  | eglCreateSync (dpy : EGLDisplay) (type : EGLenum) (attribs : Option (List EGLAttrib))
  | eglCreateSyncKHR (dpy : EGLDisplay) (type : EGLenum) (attribs : Option (List EGLint))
  | eglGetProcAddress (procname : String)
  | glFlush
  | eglDestroySync (dpy : EGLDisplay) (sync : EGLSync)
  | eglDestroySyncKHR (dpy : EGLDisplay) (sync : EGLSyncKHR)
  | eglClientWaitSync (dpy : EGLDisplay) (sync : EGLSync) (flags : Int) (timeout : EGLTime)
  | eglClientWaitSyncKHR (dpy : EGLDisplay) (sync : EGLSyncKHR) (flags : Int) (timeout : EGLTime)
  | eglWaitSync (dpy : EGLDisplay) (sync : EGLSync) (flags : Int)
  | eglWaitSyncKHR (dpy : EGLDisplay) (sync : EGLSyncKHR) (flags : Int)
  | eglDupNativeFenceFDANDROID (dpy : EGLDisplay) (sync : EGLSyncKHR)
  deriving DecidableEq, Repr

/-- What the driver answers.  The first argument of the stateful entry points is
the list of calls made before this one, so that a driver may answer the same
request differently at different times (fresh handles, fresh descriptors).
`eglGetProcAddress name = false` means that the lookup returns the null pointer.
The results of the destroy and wait entry points are discarded by the code and
are not modelled. -/
structure EGLDriver where
  eglCreateSync : List DriverCall → EGLDisplay → EGLenum → Option (List EGLAttrib) → EGLSync
  eglCreateSyncKHR : List DriverCall → EGLDisplay → EGLenum → Option (List EGLint) → EGLSyncKHR
  eglGetProcAddress : String → Bool
  eglDupNativeFenceFDANDROID : List DriverCall → EGLDisplay → EGLSyncKHR → Int

/-- The preprocessor switches `GLFenceEGL.cpp` is compiled under. -/
structure BuildConfig where
  EGL_EGLEXT_PROTOTYPES : Bool
  OS_UNIX : Bool

/-- The part of `PlatformDisplay::sharedDisplay()` the fence code reads:
the display handle and the answer of the version check (`PlatformDisplay.cpp`
is not among the sources, so the check is a parameter). -/
structure PlatformDisplay where
  eglDisplay : EGLDisplay
  eglCheckVersion : Nat → Nat → Bool

/-- The field of `GLFence::capabilities()` read by `serverWait`. -/
structure GLFenceCapabilities where
  eglServerWaitSupported : Bool

/-- Everything outside the fence object that the fence code depends on. -/
structure Env where
  build : BuildConfig
  display : PlatformDisplay
  capabilities : GLFenceCapabilities
  driver : EGLDriver

/-- The class `WTF::UnixFileDescriptor` by its two constructors used here:
`{ }` (the empty descriptor) and `UnixFileDescriptor { fd, Adopt }`. -/
inductive UnixFileDescriptor where
  | empty
  | adopt (fd : Int)
  deriving DecidableEq, Repr

/-- The members of `GLFenceEGL` (set by the constructor, lines 92-96). -/
structure GLFenceEGL where
  m_sync : EGLSyncKHR
  m_isExportable : Bool
  deriving DecidableEq, Repr

/-! ## `GLFenceEGL.cpp` -/

/-- Lines 38-57 of `createEGLFence`: the version-aware dispatch that tries to
create the sync object.  Returns the value of the local `sync` (initially the
null pointer) and the extended log. -/
def createEGLFence.dispatch (env : Env) (type : EGLenum) (attributes : List EGLAttrib)
    (log : List DriverCall) : EGLSync × List DriverCall :=
  let display := env.display
  if display.eglCheckVersion 1 5 then
    (env.driver.eglCreateSync log display.eglDisplay type (dataOrNull attributes),
      log ++ [DriverCall.eglCreateSync display.eglDisplay type (dataOrNull attributes)])
  else
    let intAttributes : List EGLint := attributes.map toEGLint
    if env.build.EGL_EGLEXT_PROTOTYPES then
      (env.driver.eglCreateSyncKHR log display.eglDisplay type (dataOrNull intAttributes),
        log ++ [DriverCall.eglCreateSyncKHR display.eglDisplay type (dataOrNull intAttributes)])
    else
      let log1 := log ++ [DriverCall.eglGetProcAddress "eglCreateSyncKHR"]
      if env.driver.eglGetProcAddress "eglCreateSyncKHR" then
        (env.driver.eglCreateSyncKHR log1 display.eglDisplay type (dataOrNull intAttributes),
          log1 ++ [DriverCall.eglCreateSyncKHR display.eglDisplay type (dataOrNull intAttributes)])
      else
        -- the local sync keeps its initial value, the null pointer
        (0, log1)

/-- The function `createEGLFence` (lines 36-69).  `none` is the null `unique_ptr`. -/
def createEGLFence (env : Env) (type : EGLenum) (attributes : List EGLAttrib)
    (log : List DriverCall) : Option GLFenceEGL × List DriverCall :=
  let r := createEGLFence.dispatch env type attributes log
  if r.1 = EGL_NO_SYNC then
    (none, r.2)
  else
    let log2 := r.2 ++ [DriverCall.glFlush]
    let isExportable : Bool :=
      if env.build.OS_UNIX then decide (type = EGL_SYNC_NATIVE_FENCE_ANDROID) else false
    (some { m_sync := r.1, m_isExportable := isExportable }, log2)

/-- The function `GLFenceEGL::create` (lines 71-74). -/
def GLFenceEGL.create (env : Env) (log : List DriverCall) : Option GLFenceEGL × List DriverCall :=
  createEGLFence env EGL_SYNC_FENCE_KHR [] log

/-- The function `GLFenceEGL::createExportable` (lines 77-80, compiled when `OS(UNIX)`). -/
def GLFenceEGL.createExportable (env : Env) (log : List DriverCall) :
    Option GLFenceEGL × List DriverCall :=
  createEGLFence env EGL_SYNC_NATIVE_FENCE_ANDROID [] log

/-- The function `GLFenceEGL::importFD` (lines 82-89, compiled when `OS(UNIX)`).
The argument is the integer `fd.release()` yields. -/
def GLFenceEGL.importFD (env : Env) (fd : Int) (log : List DriverCall) :
    Option GLFenceEGL × List DriverCall :=
  let attributes : List EGLAttrib := [EGL_SYNC_NATIVE_FENCE_FD_ANDROID, fd, EGL_NONE]
  createEGLFence env EGL_SYNC_NATIVE_FENCE_ANDROID attributes log

/-- The destructor `GLFenceEGL::~GLFenceEGL` (lines 98-113). -/
def GLFenceEGL.destroy (env : Env) (self : GLFenceEGL) (log : List DriverCall) :
    List DriverCall :=
  let display := env.display
  if display.eglCheckVersion 1 5 then
    log ++ [DriverCall.eglDestroySync display.eglDisplay self.m_sync]
  else
    if env.build.EGL_EGLEXT_PROTOTYPES then
      log ++ [DriverCall.eglDestroySyncKHR display.eglDisplay self.m_sync]
    else
      let log1 := log ++ [DriverCall.eglGetProcAddress "eglDestroySyncKHR"]
      if env.driver.eglGetProcAddress "eglDestroySyncKHR" then
        log1 ++ [DriverCall.eglDestroySyncKHR display.eglDisplay self.m_sync]
      else
        log1

/-- The method `GLFenceEGL::clientWait` (lines 115-130).  Returns the fence
members after the call and the extended log. -/
def GLFenceEGL.clientWait (env : Env) (self : GLFenceEGL) (log : List DriverCall) :
    GLFenceEGL × List DriverCall :=
  let display := env.display
  if display.eglCheckVersion 1 5 then
    (self, log ++ [DriverCall.eglClientWaitSync display.eglDisplay self.m_sync 0 EGL_FOREVER])
  else
    if env.build.EGL_EGLEXT_PROTOTYPES then
      (self, log ++ [DriverCall.eglClientWaitSyncKHR display.eglDisplay self.m_sync 0 EGL_FOREVER_KHR])
    else
      let log1 := log ++ [DriverCall.eglGetProcAddress "eglClientWaitSyncKHR"]
      if env.driver.eglGetProcAddress "eglClientWaitSyncKHR" then
        (self, log1 ++ [DriverCall.eglClientWaitSyncKHR display.eglDisplay self.m_sync 0 EGL_FOREVER_KHR])
      else
        (self, log1)

/-- The method `GLFenceEGL::serverWait` (lines 132-152). -/
def GLFenceEGL.serverWait (env : Env) (self : GLFenceEGL) (log : List DriverCall) :
    GLFenceEGL × List DriverCall :=
  if !env.capabilities.eglServerWaitSupported then
    GLFenceEGL.clientWait env self log
  else
    let display := env.display
    if display.eglCheckVersion 1 5 then
      (self, log ++ [DriverCall.eglWaitSync display.eglDisplay self.m_sync 0])
    else
      if env.build.EGL_EGLEXT_PROTOTYPES then
        (self, log ++ [DriverCall.eglWaitSyncKHR display.eglDisplay self.m_sync 0])
      else
        let log1 := log ++ [DriverCall.eglGetProcAddress "eglWaitSyncKHR"]
        if env.driver.eglGetProcAddress "eglWaitSyncKHR" then
          (self, log1 ++ [DriverCall.eglWaitSyncKHR display.eglDisplay self.m_sync 0])
        else
          (self, log1)

/-- The method `GLFenceEGL::exportFD` (lines 155-170, compiled when `OS(UNIX)`).
Returns the descriptor, the fence members after the call and the extended log. -/
def GLFenceEGL.exportFD (env : Env) (self : GLFenceEGL) (log : List DriverCall) :
    UnixFileDescriptor × GLFenceEGL × List DriverCall :=
  if !self.m_isExportable then
    (UnixFileDescriptor.empty, self, log)
  else
    if env.build.EGL_EGLEXT_PROTOTYPES then
      (UnixFileDescriptor.adopt
          (env.driver.eglDupNativeFenceFDANDROID log env.display.eglDisplay self.m_sync),
        self,
        log ++ [DriverCall.eglDupNativeFenceFDANDROID env.display.eglDisplay self.m_sync])
    else
      let log1 := log ++ [DriverCall.eglGetProcAddress "eglDupNativeFenceFDANDROID"]
      if !env.driver.eglGetProcAddress "eglDupNativeFenceFDANDROID" then
        (UnixFileDescriptor.empty, self, log1)
      else
        (UnixFileDescriptor.adopt
            (env.driver.eglDupNativeFenceFDANDROID log1 env.display.eglDisplay self.m_sync),
          self,
          log1 ++ [DriverCall.eglDupNativeFenceFDANDROID env.display.eglDisplay self.m_sync])

end WebCore

/-! ## `CoordinatedGraphicsScene.h` -/

namespace WebKit

/-- The enumeration `WebCore::Damage::Propagation`.  The header names only the
enumerator `None`; any other enumerator is kept by its number. -/
inductive DamagePropagation where
  | None
  | other (tag : Nat)
  deriving DecidableEq, Repr

/-- The anonymous struct member `m_nicosia` (lines 87-90); the scene reference
and the state are kept by handle. -/
structure NicosiaMembers where
  scene : Option Nat
  state : Nat
  deriving DecidableEq, Repr

/-- The data members of `CoordinatedGraphicsScene` (lines 87-108).  Pointers are
`Option` handles (`none` is null), the hash map is an association list. -/
structure CoordinatedGraphicsScene where
  m_nicosia : NicosiaMembers
  m_textureMapper : Option Nat
  m_client : Option Nat
  m_isActive : Bool
  m_damagePropagation : DamagePropagation
  m_rootLayer : Option Nat
  m_rootLayerID : Nat
  m_backingStores : List (Nat × Nat)
  m_fpsCounter : Nat
  deriving DecidableEq, Repr

/-- Modelled from the spec: the constructor
`CoordinatedGraphicsScene(CoordinatedGraphicsSceneClient*)` is only declared in
the header (line 55); its definition is missing.  The spec gives the scene's
options as "active: bool (default false)" and the initial state as having "no
root layer".  The constructor is taken to store its argument in `m_client` and
to leave every other member to its default member initialiser of the header
(`m_isActive { false }`, `m_damagePropagation { None }`, `m_rootLayerID { 0 }`)
or to its default construction (null pointers, empty map). -/
def CoordinatedGraphicsScene.construct (client : Option Nat) : CoordinatedGraphicsScene :=
  { m_nicosia := { scene := none, state := 0 }
    m_textureMapper := none
    m_client := client
    m_isActive := false
    m_damagePropagation := DamagePropagation.None
    m_rootLayer := none
    m_rootLayerID := 0
    m_backingStores := []
    m_fpsCounter := 0 }

/-- The accessor `isActive` (line 67). -/
def CoordinatedGraphicsScene.isActive (self : CoordinatedGraphicsScene) : Bool :=
  self.m_isActive

/-- The mutator `setActive` (line 68). -/
def CoordinatedGraphicsScene.setActive (self : CoordinatedGraphicsScene) (active : Bool) :
    CoordinatedGraphicsScene :=
  { self with m_isActive := active }

/-- The mutator `setDamagePropagation` (line 71, under `ENABLE(DAMAGE_TRACKING)`). -/
def CoordinatedGraphicsScene.setDamagePropagation (self : CoordinatedGraphicsScene)
    (damagePropagation : DamagePropagation) : CoordinatedGraphicsScene :=
  { self with m_damagePropagation := damagePropagation }

/-- The accessor `rootLayer` (line 77). -/
def CoordinatedGraphicsScene.rootLayer (self : CoordinatedGraphicsScene) : Option Nat :=
  self.m_rootLayer

/-- A call of one of the two mutators whose body the header gives. -/
inductive SceneCall where
  | setActive (active : Bool)
  | setDamagePropagation (damagePropagation : DamagePropagation)
  deriving DecidableEq, Repr

/-- Performs one mutator call. -/
def SceneCall.apply (self : CoordinatedGraphicsScene) : SceneCall → CoordinatedGraphicsScene
  | SceneCall.setActive active => self.setActive active
  | SceneCall.setDamagePropagation p => self.setDamagePropagation p

/-- Performs a sequence of mutator calls, first call first. -/
def SceneCall.run (self : CoordinatedGraphicsScene) (calls : List SceneCall) :
    CoordinatedGraphicsScene :=
  calls.foldl SceneCall.apply self

/-- The arguments of the `setActive` calls of a call sequence, in order. -/
def SceneCall.activeArgs (calls : List SceneCall) : List Bool :=
  calls.filterMap fun c =>
    match c with
    | SceneCall.setActive active => some active
    | SceneCall.setDamagePropagation _ => none

end WebKit

/-! ## `URLPatternComponent.cpp` -/

namespace WebCore
namespace URLPatternUtilities

/-- The enumeration `PartType` (declared in `URLPatternParser.h`, which is not
among the sources).  `compile` names only the enumerator `Regexp`; the other
three are the remaining part types of the URL Pattern standard. -/
inductive PartType where
  | FixedText
  | Regexp
  | SegmentWildcard
  | FullWildcard
  deriving DecidableEq, Repr

/-- The struct `Part`: `compile` reads only the member `type`; the remaining
members are kept together as `value`. -/
structure Part where
  type : PartType
  value : String
  deriving DecidableEq, Repr

/-- The struct `URLPatternStringOptions`; `compile` reads only `ignoreCase` and
forwards the whole value. -/
structure URLPatternStringOptions where
  delimiterCodepoint : String
  prefixCodepoint : String
  ignoreCase : Bool
  deriving DecidableEq, Repr

/-- The enumeration `EncodingCallbackType`, kept by the number of the enumerator:
`compile` only forwards it to the parser. -/
abbrev EncodingCallbackType := Nat

/-- The enumeration `JSC::Yarr::Flags`. -/
inductive YarrFlags where
  | Global
  | IgnoreCase
  | Multiline
  | DotAll
  | Unicode
  | UnicodeSets
  | Sticky
  | HasIndices
  deriving DecidableEq, Repr

/-- The method `OptionSet::add`: a set of flags kept as a duplicate-free list. -/
def OptionSet.add (flags : List YarrFlags) (flag : YarrFlags) : List YarrFlags :=
  if flag ∈ flags then flags else flags ++ [flag]

/-- The enumeration `ExceptionCode`: `TypeError` is the one `compile` raises
itself, any other code is kept by its number. -/
inductive ExceptionCode where
  | TypeError
  | other (code : Nat)
  deriving DecidableEq, Repr

/-- The class `WebCore::Exception`: a code and a message. -/
structure Exception where
  code : ExceptionCode
  message : String
  deriving DecidableEq, Repr

/-- A `JSC::RegExp` object as `compile` sees it: the pattern and the flags it
was created from and the answer of `isValid()`. -/
structure RegExp where
  pattern : String
  flags : List YarrFlags
  isValid : Bool
  deriving DecidableEq, Repr

/-- The functions `compile` calls whose definitions are not among the sources:
the pattern parser, the two generators and the regular-expression constructor
(the `vm` argument, the heap the object is allocated in, is left out). -/
structure Collaborators where
  parse : String → URLPatternStringOptions → EncodingCallbackType → Except Exception (List Part)
  generateRegexAndNameList : List Part → URLPatternStringOptions → String × List String
  generatePatternString : List Part → URLPatternStringOptions → String
  RegExp_create : String → List YarrFlags → RegExp

/-- The members of `URLPatternComponent` (constructor, lines 38-44). -/
structure URLPatternComponent where
  m_patternString : String
  m_regularExpression : RegExp
  m_groupNameList : List String
  m_hasRegexpGroups : Bool
  deriving DecidableEq, Repr

/-- The function `URLPatternComponent::compile` (lines 47-71). -/
def URLPatternComponent.compile (deps : Collaborators) (input : String)
    (type : EncodingCallbackType) (options : URLPatternStringOptions) :
    Except Exception URLPatternComponent :=
  match deps.parse input options type with
  | Except.error e => Except.error e
  | Except.ok partList =>
    let generated := deps.generateRegexAndNameList partList options
    let regularExpressionString := generated.1
    let nameList := generated.2
    let flags : List YarrFlags := [YarrFlags.UnicodeSets]
    let flags := if options.ignoreCase then OptionSet.add flags YarrFlags.IgnoreCase else flags
    let regularExpression := deps.RegExp_create regularExpressionString flags
    if !regularExpression.isValid then
      Except.error
        { code := ExceptionCode.TypeError
          message := "Unable to create RegExp object regular expression from provided URLPattern string." }
    else
      let patternString := deps.generatePatternString partList options
      let hasRegexGroups := partList.any fun part => decide (part.type = PartType.Regexp)
      Except.ok
        { m_patternString := patternString
          m_regularExpression := regularExpression
          m_groupNameList := nameList
          m_hasRegexpGroups := hasRegexGroups }

end URLPatternUtilities
end WebCore

/-! ## Vocabulary of the properties -/

namespace WebCore

/-- The calls appended to the log `before` by an operation whose log is `after`. -/
def issuedSince (before after : List DriverCall) : List DriverCall :=
  after.drop before.length

/-- A server-side wait (`eglWaitSync` or `eglWaitSyncKHR`), on any handle. -/
def DriverCall.isServerWait : DriverCall → Bool
  | DriverCall.eglWaitSync _ _ _ => true
  | DriverCall.eglWaitSyncKHR _ _ _ => true
  | _ => false

/-- A server-side wait on the handle `sync`. -/
def DriverCall.isServerWaitOn (sync : EGLSync) : DriverCall → Bool
  | DriverCall.eglWaitSync _ s _ => decide (s = sync)
  | DriverCall.eglWaitSyncKHR _ s _ => decide (s = sync)
  | _ => false

/-- A client wait on the handle `sync` with the infinite timeout. -/
def DriverCall.isBlockingClientWaitOn (sync : EGLSync) : DriverCall → Bool
  | DriverCall.eglClientWaitSync _ s _ timeout => decide (s = sync) && decide (timeout = EGL_FOREVER)
  | DriverCall.eglClientWaitSyncKHR _ s _ timeout =>
      decide (s = sync) && decide (timeout = EGL_FOREVER_KHR)
  | _ => false

/-- A call that creates a sync object. -/
def DriverCall.isCreate : DriverCall → Bool
  | DriverCall.eglCreateSync _ _ _ => true
  | DriverCall.eglCreateSyncKHR _ _ _ => true
  | _ => false

/-- The name under which an extension entry point is looked up, for a call
through such an entry point; `none` for core EGL 1.5 calls, `glFlush` and the
lookup itself. -/
def DriverCall.extensionName : DriverCall → Option String
  | DriverCall.eglCreateSyncKHR _ _ _ => some "eglCreateSyncKHR"
  | DriverCall.eglDestroySyncKHR _ _ => some "eglDestroySyncKHR"
  | DriverCall.eglClientWaitSyncKHR _ _ _ _ => some "eglClientWaitSyncKHR"
  | DriverCall.eglWaitSyncKHR _ _ _ => some "eglWaitSyncKHR"
  | DriverCall.eglDupNativeFenceFDANDROID _ _ => some "eglDupNativeFenceFDANDROID"
  | _ => none

/-- A call through a KHR extension entry point, or the lookup of one. -/
def DriverCall.isLegacy : DriverCall → Bool
  | DriverCall.eglCreateSyncKHR _ _ _ => true
  | DriverCall.eglDestroySyncKHR _ _ => true
  | DriverCall.eglClientWaitSyncKHR _ _ _ _ => true
  | DriverCall.eglWaitSyncKHR _ _ _ => true
  | DriverCall.eglGetProcAddress _ => true
  | _ => false

/-- The core EGL 1.5 call that does the same thing to the same handle with the
same flags and timeout as a destroy or wait call; `none` for the other calls. -/
def DriverCall.coreForm : DriverCall → Option DriverCall
  | DriverCall.eglDestroySync d s => some (DriverCall.eglDestroySync d s)
  | DriverCall.eglDestroySyncKHR d s => some (DriverCall.eglDestroySync d s)
  | DriverCall.eglClientWaitSync d s f t => some (DriverCall.eglClientWaitSync d s f t)
  | DriverCall.eglClientWaitSyncKHR d s f t => some (DriverCall.eglClientWaitSync d s f t)
  | DriverCall.eglWaitSync d s f => some (DriverCall.eglWaitSync d s f)
  | DriverCall.eglWaitSyncKHR d s f => some (DriverCall.eglWaitSync d s f)
  | _ => none

/-- The display and the sync type a sync-creating call is made with. -/
def DriverCall.createTarget : DriverCall → Option (EGLDisplay × EGLenum)
  | DriverCall.eglCreateSync d t _ => some (d, t)
  | DriverCall.eglCreateSyncKHR d t _ => some (d, t)
  | _ => none

/-- The environment `env` with the answer of every version check replaced by `b`. -/
def Env.withVersionCheck (env : Env) (b : Bool) : Env :=
  { env with display := { env.display with eglCheckVersion := fun _ _ => b } }

/-- In the words of the factory's contract, "the sync object the driver
produced": the handle returned by the creation entry point that the build and
the display select, when such an entry point is available and the handle is
not `EGL_NO_SYNC`. -/
def driverProducedSync (env : Env) (type : EGLenum) (attributes : List EGLAttrib)
    (log : List DriverCall) : Option EGLSync :=
  let returned : Option EGLSync :=
    if env.display.eglCheckVersion 1 5 then
      some (env.driver.eglCreateSync log env.display.eglDisplay type (dataOrNull attributes))
    else if env.build.EGL_EGLEXT_PROTOTYPES then
      some (env.driver.eglCreateSyncKHR log env.display.eglDisplay type
        (dataOrNull (attributes.map toEGLint)))
    else if env.driver.eglGetProcAddress "eglCreateSyncKHR" then
      some (env.driver.eglCreateSyncKHR (log ++ [DriverCall.eglGetProcAddress "eglCreateSyncKHR"])
        env.display.eglDisplay type (dataOrNull (attributes.map toEGLint)))
    else
      none
  returned.bind fun handle => if handle = EGL_NO_SYNC then none else some handle

/-- Some `glFlush` stands in the list before some sync-creating call. -/
def flushBeforeCreation : List DriverCall → Bool
  | [] => false
  | c :: rest => (decide (c = DriverCall.glFlush) && rest.any DriverCall.isCreate)
      || flushBeforeCreation rest

/-- A call that duplicates the native fence descriptor of a sync object. -/
def DriverCall.isDuplication : DriverCall → Bool
  | DriverCall.eglDupNativeFenceFDANDROID _ _ => true
  | _ => false

/-- The lookup `exportFD` performs before the duplication: none when the
extension prototypes are compiled in. -/
def exportFDLookup (env : Env) : List DriverCall :=
  if env.build.EGL_EGLEXT_PROTOTYPES then []
  else [DriverCall.eglGetProcAddress "eglDupNativeFenceFDANDROID"]

/-- The name of the wait entry point `serverWait` dispatches to below EGL 1.5. -/
def serverWaitExtensionName (env : Env) : String :=
  if env.capabilities.eglServerWaitSupported then "eglWaitSyncKHR" else "eglClientWaitSyncKHR"

/-! ## Sample environments -/

/-- A driver that hands out fresh non-null handles and fresh descriptors, and
whose lookup succeeds for the listed entry points only. -/
def sampleDriver (entryPoints : List String) : EGLDriver :=
  { eglCreateSync := fun log _ _ _ => 100 + log.length
    eglCreateSyncKHR := fun log _ _ _ => 200 + log.length
    eglGetProcAddress := fun procname => entryPoints.contains procname
    eglDupNativeFenceFDANDROID := fun log _ _ => 10 + log.length }

/-- The entry points of `EGL_KHR_fence_sync`. -/
def fenceSyncEntryPoints : List String :=
  ["eglCreateSyncKHR", "eglDestroySyncKHR", "eglClientWaitSyncKHR"]

/-- The entry points of all the extensions the fence code uses. -/
def allEntryPoints : List String :=
  fenceSyncEntryPoints ++ ["eglWaitSyncKHR", "eglDupNativeFenceFDANDROID"]

/-- A display with handle 1 reporting the EGL version `major.minor`. -/
def sampleDisplay (major minor : Nat) : PlatformDisplay :=
  { eglDisplay := 1
    eglCheckVersion := fun ma mi => decide (major > ma) || (decide (major = ma) && decide (minor ≥ mi)) }

/-- EGL 1.5, UNIX, extension prototypes compiled in, server wait supported. -/
def envCore : Env :=
  { build := { EGL_EGLEXT_PROTOTYPES := true, OS_UNIX := true }
    display := sampleDisplay 1 5
    capabilities := { eglServerWaitSupported := true }
    driver := sampleDriver allEntryPoints }

/-- EGL 1.5, UNIX, no server-wait capability. -/
def envNoServerWait : Env :=
  { build := { EGL_EGLEXT_PROTOTYPES := true, OS_UNIX := true }
    display := sampleDisplay 1 5
    capabilities := { eglServerWaitSupported := false }
    driver := sampleDriver allEntryPoints }

/-- EGL 1.4, UNIX, entry points looked up at run time, every lookup failing. -/
def envMissing : Env :=
  { build := { EGL_EGLEXT_PROTOTYPES := false, OS_UNIX := true }
    display := sampleDisplay 1 4
    capabilities := { eglServerWaitSupported := true }
    driver := sampleDriver [] }

/-- EGL 1.4, UNIX, entry points looked up at run time, every lookup succeeding. -/
def envLookup : Env :=
  { build := { EGL_EGLEXT_PROTOTYPES := false, OS_UNIX := true }
    display := sampleDisplay 1 4
    capabilities := { eglServerWaitSupported := true }
    driver := sampleDriver allEntryPoints }

/-- EGL 1.4, UNIX, entry points looked up at run time; the driver has the entry
points of `EGL_KHR_fence_sync` but neither `eglWaitSyncKHR` nor
`eglDupNativeFenceFDANDROID`. -/
def envFenceSyncOnly : Env :=
  { build := { EGL_EGLEXT_PROTOTYPES := false, OS_UNIX := true }
    display := sampleDisplay 1 4
    capabilities := { eglServerWaitSupported := true }
    driver := sampleDriver fenceSyncEntryPoints }

/-- A fence that was not created exportable. -/
def plainFence : GLFenceEGL := { m_sync := 7, m_isExportable := false }

/-- A fence that was created exportable. -/
def nativeFence : GLFenceEGL := { m_sync := 9, m_isExportable := true }

end WebCore

namespace WebCore
namespace URLPatternUtilities

/-- The flags the component's regular expression is to be created with:
`UnicodeSets`, plus `IgnoreCase` exactly when `options.ignoreCase` is set. -/
def componentFlags (options : URLPatternStringOptions) : List YarrFlags :=
  YarrFlags.UnicodeSets :: (if options.ignoreCase then [YarrFlags.IgnoreCase] else [])

/-- The message of the `TypeError` raised by `compile`. -/
def invalidRegExpMessage : String :=
  "Unable to create RegExp object regular expression from provided URLPattern string."

/-- Sample collaborators.  The parser rejects the encoding type 0, yields one
fixed-text part for type 1 and a fixed-text part followed by a regexp part
otherwise; a regular expression is valid unless it is case-insensitive. -/
def sampleCollaborators : Collaborators :=
  { parse := fun input _ type =>
      if type = 0 then Except.error { code := ExceptionCode.other 12, message := "parse error" }
      else if type = 1 then Except.ok [{ type := PartType.FixedText, value := input }]
      else Except.ok [{ type := PartType.FixedText, value := input },
        { type := PartType.Regexp, value := "[a-z]+" }]
    generateRegexAndNameList := fun partList _ => ("^x$", partList.map fun part => part.value)
    generatePatternString := fun partList _ => String.join (partList.map fun part => part.value)
    RegExp_create := fun pattern flags =>
      { pattern := pattern, flags := flags, isValid := !(flags.contains YarrFlags.IgnoreCase) } }

/-- Sample options: case-sensitive or case-insensitive matching. -/
def sampleOptions (ignoreCase : Bool) : URLPatternStringOptions :=
  { delimiterCodepoint := "/", prefixCodepoint := "/", ignoreCase := ignoreCase }

end URLPatternUtilities
end WebCore

/-! ## Logs of the fence operations -/

namespace WebCore

theorem issuedSince_append (log issued : List DriverCall) :
    issuedSince log (log ++ issued) = issued := by
  simp [issuedSince]

/-- The calls `clientWait` appends, by case. -/
theorem GLFenceEGL.clientWait_eq (env : Env) (self : GLFenceEGL) (log : List DriverCall) :
    GLFenceEGL.clientWait env self log =
      (self, log ++
        (if env.display.eglCheckVersion 1 5 then
          [DriverCall.eglClientWaitSync env.display.eglDisplay self.m_sync 0 EGL_FOREVER]
        else if env.build.EGL_EGLEXT_PROTOTYPES then
          [DriverCall.eglClientWaitSyncKHR env.display.eglDisplay self.m_sync 0 EGL_FOREVER_KHR]
        else if env.driver.eglGetProcAddress "eglClientWaitSyncKHR" then
          [DriverCall.eglGetProcAddress "eglClientWaitSyncKHR",
            DriverCall.eglClientWaitSyncKHR env.display.eglDisplay self.m_sync 0 EGL_FOREVER_KHR]
        else
          [DriverCall.eglGetProcAddress "eglClientWaitSyncKHR"])) := by
  by_cases h1 : env.display.eglCheckVersion 1 5 = true <;>
    by_cases h2 : env.build.EGL_EGLEXT_PROTOTYPES = true <;>
    by_cases h3 : env.driver.eglGetProcAddress "eglClientWaitSyncKHR" = true <;>
    simp [GLFenceEGL.clientWait, h1, h2, h3]

/-- The calls the server-wait branch of `serverWait` appends, by case. -/
theorem GLFenceEGL.serverWait_eq_of_supported (env : Env) (self : GLFenceEGL)
    (log : List DriverCall) (h : env.capabilities.eglServerWaitSupported = true) :
    GLFenceEGL.serverWait env self log =
      (self, log ++
        (if env.display.eglCheckVersion 1 5 then
          [DriverCall.eglWaitSync env.display.eglDisplay self.m_sync 0]
        else if env.build.EGL_EGLEXT_PROTOTYPES then
          [DriverCall.eglWaitSyncKHR env.display.eglDisplay self.m_sync 0]
        else if env.driver.eglGetProcAddress "eglWaitSyncKHR" then
          [DriverCall.eglGetProcAddress "eglWaitSyncKHR",
            DriverCall.eglWaitSyncKHR env.display.eglDisplay self.m_sync 0]
        else
          [DriverCall.eglGetProcAddress "eglWaitSyncKHR"])) := by
  by_cases h1 : env.display.eglCheckVersion 1 5 = true <;>
    by_cases h2 : env.build.EGL_EGLEXT_PROTOTYPES = true <;>
    by_cases h3 : env.driver.eglGetProcAddress "eglWaitSyncKHR" = true <;>
    simp [GLFenceEGL.serverWait, h, h1, h2, h3]

theorem GLFenceEGL.serverWait_eq_of_unsupported (env : Env) (self : GLFenceEGL)
    (log : List DriverCall) (h : env.capabilities.eglServerWaitSupported = false) :
    GLFenceEGL.serverWait env self log = GLFenceEGL.clientWait env self log := by
  simp [GLFenceEGL.serverWait, h]

/-- The calls the destructor appends, by case. -/
theorem GLFenceEGL.destroy_eq (env : Env) (self : GLFenceEGL) (log : List DriverCall) :
    GLFenceEGL.destroy env self log =
      log ++
        (if env.display.eglCheckVersion 1 5 then
          [DriverCall.eglDestroySync env.display.eglDisplay self.m_sync]
        else if env.build.EGL_EGLEXT_PROTOTYPES then
          [DriverCall.eglDestroySyncKHR env.display.eglDisplay self.m_sync]
        else if env.driver.eglGetProcAddress "eglDestroySyncKHR" then
          [DriverCall.eglGetProcAddress "eglDestroySyncKHR",
            DriverCall.eglDestroySyncKHR env.display.eglDisplay self.m_sync]
        else
          [DriverCall.eglGetProcAddress "eglDestroySyncKHR"]) := by
  by_cases h1 : env.display.eglCheckVersion 1 5 = true <;>
    by_cases h2 : env.build.EGL_EGLEXT_PROTOTYPES = true <;>
    by_cases h3 : env.driver.eglGetProcAddress "eglDestroySyncKHR" = true <;>
    simp [GLFenceEGL.destroy, h1, h2, h3]

/-- The calls the creation dispatch appends, by case. -/
theorem createEGLFence.dispatch_log (env : Env) (type : EGLenum) (attributes : List EGLAttrib)
    (log : List DriverCall) :
    (createEGLFence.dispatch env type attributes log).2 =
      log ++
        (if env.display.eglCheckVersion 1 5 then
          [DriverCall.eglCreateSync env.display.eglDisplay type (dataOrNull attributes)]
        else if env.build.EGL_EGLEXT_PROTOTYPES then
          [DriverCall.eglCreateSyncKHR env.display.eglDisplay type
            (dataOrNull (attributes.map toEGLint))]
        else if env.driver.eglGetProcAddress "eglCreateSyncKHR" then
          [DriverCall.eglGetProcAddress "eglCreateSyncKHR",
            DriverCall.eglCreateSyncKHR env.display.eglDisplay type
              (dataOrNull (attributes.map toEGLint))]
        else
          [DriverCall.eglGetProcAddress "eglCreateSyncKHR"]) := by
  by_cases h1 : env.display.eglCheckVersion 1 5 = true <;>
    by_cases h2 : env.build.EGL_EGLEXT_PROTOTYPES = true <;>
    by_cases h3 : env.driver.eglGetProcAddress "eglCreateSyncKHR" = true <;>
    simp [createEGLFence.dispatch, h1, h2, h3]

/-- The log of `createEGLFence`: the dispatch, then `glFlush` on success only. -/
theorem createEGLFence_log (env : Env) (type : EGLenum) (attributes : List EGLAttrib)
    (log : List DriverCall) :
    (createEGLFence env type attributes log).2 =
      (createEGLFence.dispatch env type attributes log).2 ++
        (if (createEGLFence env type attributes log).1 = none then [] else [DriverCall.glFlush]) := by
  by_cases h1 : (createEGLFence.dispatch env type attributes log).1 = EGL_NO_SYNC <;>
    simp [createEGLFence, h1]

/-- The handle the dispatch leaves in `sync` is what the driver produced. -/
theorem createEGLFence.dispatch_sync (env : Env) (type : EGLenum) (attributes : List EGLAttrib)
    (log : List DriverCall) :
    driverProducedSync env type attributes log =
      if (createEGLFence.dispatch env type attributes log).1 = EGL_NO_SYNC then none
      else some (createEGLFence.dispatch env type attributes log).1 := by
  by_cases h1 : env.display.eglCheckVersion 1 5 = true <;>
    by_cases h2 : env.build.EGL_EGLEXT_PROTOTYPES = true <;>
    by_cases h3 : env.driver.eglGetProcAddress "eglCreateSyncKHR" = true <;>
    simp [driverProducedSync, createEGLFence.dispatch, h1, h2, h3, EGL_NO_SYNC]

/-- The calls `exportFD` appends, by case. -/
theorem GLFenceEGL.exportFD_log (env : Env) (self : GLFenceEGL) (log : List DriverCall) :
    (GLFenceEGL.exportFD env self log).2 =
      (self, log ++
        (if self.m_isExportable = false then []
        else if env.build.EGL_EGLEXT_PROTOTYPES then
          [DriverCall.eglDupNativeFenceFDANDROID env.display.eglDisplay self.m_sync]
        else if env.driver.eglGetProcAddress "eglDupNativeFenceFDANDROID" then
          [DriverCall.eglGetProcAddress "eglDupNativeFenceFDANDROID",
            DriverCall.eglDupNativeFenceFDANDROID env.display.eglDisplay self.m_sync]
        else
          [DriverCall.eglGetProcAddress "eglDupNativeFenceFDANDROID"])) := by
  by_cases h1 : self.m_isExportable = true <;>
    by_cases h2 : env.build.EGL_EGLEXT_PROTOTYPES = true <;>
    by_cases h3 : env.driver.eglGetProcAddress "eglDupNativeFenceFDANDROID" = true <;>
    simp [GLFenceEGL.exportFD, h1, h2, h3]

/-! ## The fence claims -/

/-- C1: on a context whose capability flag `eglServerWaitSupported` is false,
`serverWait` does exactly what `clientWait` does on the same fence from the same
log (same fence state afterwards, same sequence of driver calls with the same
arguments), and none of the calls it issues is a server-side wait. -/
theorem serverWait_unsupported_is_clientWait (env : Env) (self : GLFenceEGL)
    (log : List DriverCall) (h : env.capabilities.eglServerWaitSupported = false) :
    GLFenceEGL.serverWait env self log = GLFenceEGL.clientWait env self log ∧
    issuedSince log (GLFenceEGL.serverWait env self log).2 =
      issuedSince log (GLFenceEGL.clientWait env self log).2 ∧
    (∃ issued, (GLFenceEGL.serverWait env self log).2 = log ++ issued) ∧
    ∀ c ∈ issuedSince log (GLFenceEGL.serverWait env self log).2,
      DriverCall.isServerWait c = false := by
  have e := GLFenceEGL.serverWait_eq_of_unsupported env self log h
  refine ⟨e, by rw [e], ?_, ?_⟩
  · rw [e, GLFenceEGL.clientWait_eq]
    exact ⟨_, rfl⟩
  · rw [e, GLFenceEGL.clientWait_eq]
    simp only [issuedSince_append]
    intro c hc
    split_ifs at hc <;> simp at hc <;> rcases hc with rfl | rfl <;> rfl

theorem serverWait_unsupported_is_clientWait_witness :
    envNoServerWait.capabilities.eglServerWaitSupported = false ∧
    GLFenceEGL.serverWait envNoServerWait plainFence [DriverCall.glFlush] =
      (plainFence, [DriverCall.glFlush, DriverCall.eglClientWaitSync 1 7 0 EGL_FOREVER]) ∧
    GLFenceEGL.serverWait envNoServerWait plainFence [DriverCall.glFlush] =
      GLFenceEGL.clientWait envNoServerWait plainFence [DriverCall.glFlush] :=
  ⟨rfl, by decide,
    (serverWait_unsupported_is_clientWait envNoServerWait plainFence [DriverCall.glFlush] rfl).1⟩

/-- The fence `createEGLFence` returns, in terms of what the driver produced. -/
theorem createEGLFence_fst (env : Env) (type : EGLenum) (attributes : List EGLAttrib)
    (log : List DriverCall) :
    (createEGLFence env type attributes log).1 =
      (driverProducedSync env type attributes log).map fun handle =>
        { m_sync := handle
          m_isExportable := env.build.OS_UNIX && decide (type = EGL_SYNC_NATIVE_FENCE_ANDROID) } := by
  rw [createEGLFence.dispatch_sync]
  by_cases h1 : (createEGLFence.dispatch env type attributes log).1 = EGL_NO_SYNC <;>
    by_cases h2 : env.build.OS_UNIX = true <;>
    simp [createEGLFence, h1, h2]

/-- C2: the fence factory returns the null result if and only if the driver
produced no sync object, that is, the selected create call returned
`EGL_NO_SYNC` or the creation entry point had to be looked up and the lookup
failed; otherwise it returns a fence holding exactly the handle the driver
returned.  The same holds for `create`, `createExportable` and `importFD`,
which only choose the sync type and the attribute list. -/
theorem createEGLFence_null_iff_no_sync (env : Env) (type : EGLenum)
    (attributes : List EGLAttrib) (log : List DriverCall) (fd : Int) :
    ((createEGLFence env type attributes log).1 = none ↔
      driverProducedSync env type attributes log = none) ∧
    (driverProducedSync env type attributes log = none ↔
      (env.display.eglCheckVersion 1 5 = true ∧
        env.driver.eglCreateSync log env.display.eglDisplay type (dataOrNull attributes)
          = EGL_NO_SYNC) ∨
      (env.display.eglCheckVersion 1 5 = false ∧ env.build.EGL_EGLEXT_PROTOTYPES = true ∧
        env.driver.eglCreateSyncKHR log env.display.eglDisplay type
          (dataOrNull (attributes.map toEGLint)) = EGL_NO_SYNC) ∨
      (env.display.eglCheckVersion 1 5 = false ∧ env.build.EGL_EGLEXT_PROTOTYPES = false ∧
        env.driver.eglGetProcAddress "eglCreateSyncKHR" = true ∧
        env.driver.eglCreateSyncKHR (log ++ [DriverCall.eglGetProcAddress "eglCreateSyncKHR"])
          env.display.eglDisplay type (dataOrNull (attributes.map toEGLint)) = EGL_NO_SYNC) ∨
      (env.display.eglCheckVersion 1 5 = false ∧ env.build.EGL_EGLEXT_PROTOTYPES = false ∧
        env.driver.eglGetProcAddress "eglCreateSyncKHR" = false)) ∧
    (createEGLFence env type attributes log).1.map GLFenceEGL.m_sync =
      driverProducedSync env type attributes log ∧
    (GLFenceEGL.create env log).1.map GLFenceEGL.m_sync =
      driverProducedSync env EGL_SYNC_FENCE_KHR [] log ∧
    (GLFenceEGL.createExportable env log).1.map GLFenceEGL.m_sync =
      driverProducedSync env EGL_SYNC_NATIVE_FENCE_ANDROID [] log ∧
    (GLFenceEGL.importFD env fd log).1.map GLFenceEGL.m_sync =
      driverProducedSync env EGL_SYNC_NATIVE_FENCE_ANDROID
        [EGL_SYNC_NATIVE_FENCE_FD_ANDROID, fd, EGL_NONE] log := by
  refine ⟨?_, ?_, ?_, ?_, ?_, ?_⟩
  · rw [createEGLFence_fst]; simp
  · by_cases h1 : env.display.eglCheckVersion 1 5 = true <;>
      by_cases h2 : env.build.EGL_EGLEXT_PROTOTYPES = true <;>
      by_cases h3 : env.driver.eglGetProcAddress "eglCreateSyncKHR" = true <;>
      simp [driverProducedSync, h1, h2, h3]
  · rw [createEGLFence_fst]; simp [Function.comp_def]
  · unfold GLFenceEGL.create; rw [createEGLFence_fst]; simp [Function.comp_def]
  · unfold GLFenceEGL.createExportable; rw [createEGLFence_fst]; simp [Function.comp_def]
  · unfold GLFenceEGL.importFD; rw [createEGLFence_fst]; simp [Function.comp_def]

/-- C3: `exportFD` on a fence that was not created exportable returns the empty
descriptor, leaves the fence as it was and makes no driver call.  Every fence
returned by `create` is such a fence.  A fence returned by the factory is
exportable exactly when the build is a UNIX build (the only build that has
`exportFD`) and the sync type is `EGL_SYNC_NATIVE_FENCE_ANDROID`; on a UNIX
build the fences of `createExportable` and `importFD` are exportable. -/
theorem exportFD_of_not_exportable (env : Env) (self : GLFenceEGL) (log log0 : List DriverCall)
    (type : EGLenum) (attributes : List EGLAttrib) (fd : Int)
    (h : self.m_isExportable = false) :
    GLFenceEGL.exportFD env self log = (UnixFileDescriptor.empty, self, log) ∧
    (∀ f ∈ (GLFenceEGL.create env log0).1,
      f.m_isExportable = false ∧
      GLFenceEGL.exportFD env f log = (UnixFileDescriptor.empty, f, log)) ∧
    (∀ f ∈ (createEGLFence env type attributes log0).1,
      (f.m_isExportable = true ↔
        env.build.OS_UNIX = true ∧ type = EGL_SYNC_NATIVE_FENCE_ANDROID)) ∧
    (env.build.OS_UNIX = true →
      (∀ f ∈ (GLFenceEGL.createExportable env log0).1, f.m_isExportable = true) ∧
      (∀ f ∈ (GLFenceEGL.importFD env fd log0).1, f.m_isExportable = true)) := by
  have key : ∀ (g : GLFenceEGL), g.m_isExportable = false →
      GLFenceEGL.exportFD env g log = (UnixFileDescriptor.empty, g, log) := by
    intro g hg
    simp [GLFenceEGL.exportFD, hg]
  have flag : ∀ (t : EGLenum) (a : List EGLAttrib), ∀ f ∈ (createEGLFence env t a log0).1,
      f.m_isExportable = (env.build.OS_UNIX && decide (t = EGL_SYNC_NATIVE_FENCE_ANDROID)) := by
    intro t a f hf
    rw [createEGLFence_fst] at hf
    simp only [Option.mem_def, Option.map_eq_some'] at hf
    obtain ⟨_, _, rfl⟩ := hf
    rfl
  refine ⟨key self h, ?_, ?_, ?_⟩
  · intro f hf
    have hx : f.m_isExportable = false := by
      rw [flag _ _ f hf]
      simp [EGL_SYNC_FENCE_KHR, EGL_SYNC_NATIVE_FENCE_ANDROID]
    exact ⟨hx, key f hx⟩
  · intro f hf
    rw [flag _ _ f hf]
    simp
  · intro hu
    constructor
    · intro f hf
      rw [flag _ _ f hf]
      simp [hu]
    · intro f hf
      rw [flag _ _ f hf]
      simp [hu]

theorem exportFD_of_not_exportable_witness :
    plainFence.m_isExportable = false ∧
    GLFenceEGL.exportFD envCore plainFence [DriverCall.glFlush] =
      (UnixFileDescriptor.empty, plainFence, [DriverCall.glFlush]) ∧
    (GLFenceEGL.create envCore []).1 = some { m_sync := 100, m_isExportable := false } ∧
    GLFenceEGL.exportFD envCore { m_sync := 100, m_isExportable := false } [DriverCall.glFlush] =
      (UnixFileDescriptor.empty, { m_sync := 100, m_isExportable := false }, [DriverCall.glFlush]) :=
  ⟨rfl,
    (exportFD_of_not_exportable envCore plainFence [DriverCall.glFlush] [] 0 [] 0 rfl).1,
    by decide,
    ((exportFD_of_not_exportable envCore plainFence [DriverCall.glFlush] [] 0 [] 0 rfl).2.1
      { m_sync := 100, m_isExportable := false } (by decide)).2⟩

/-- When the creation entry point has to be looked up and is missing,
`createEGLFence` returns null after the lookup alone. -/
theorem createEGLFence_of_missing (env : Env) (type : EGLenum) (attributes : List EGLAttrib)
    (log : List DriverCall) (hv : env.display.eglCheckVersion 1 5 = false)
    (hp : env.build.EGL_EGLEXT_PROTOTYPES = false)
    (hm : env.driver.eglGetProcAddress "eglCreateSyncKHR" = false) :
    createEGLFence env type attributes log =
      (none, log ++ [DriverCall.eglGetProcAddress "eglCreateSyncKHR"]) := by
  simp [createEGLFence, createEGLFence.dispatch, hv, hp, hm, EGL_NO_SYNC]

/-- In a build that looks its extension entry points up, every extension call
`createEGLFence` issues goes through an entry point whose lookup succeeded. -/
theorem createEGLFence_calls_available (env : Env) (type : EGLenum)
    (attributes : List EGLAttrib) (log : List DriverCall)
    (hp : env.build.EGL_EGLEXT_PROTOTYPES = false) :
    ∀ c ∈ issuedSince log (createEGLFence env type attributes log).2, ∀ name,
      DriverCall.extensionName c = some name → env.driver.eglGetProcAddress name = true := by
  rw [createEGLFence_log, createEGLFence.dispatch_log, List.append_assoc, issuedSince_append]
  by_cases h1 : env.display.eglCheckVersion 1 5 = true <;>
    by_cases h3 : env.driver.eglGetProcAddress "eglCreateSyncKHR" = true <;>
    by_cases h4 : (createEGLFence env type attributes log).1 = none <;>
    simp [h1, hp, h3, h4, DriverCall.extensionName]

theorem GLFenceEGL.destroy_calls_available (env : Env) (self : GLFenceEGL)
    (log : List DriverCall) (hp : env.build.EGL_EGLEXT_PROTOTYPES = false) :
    ∀ c ∈ issuedSince log (GLFenceEGL.destroy env self log), ∀ name,
      DriverCall.extensionName c = some name → env.driver.eglGetProcAddress name = true := by
  rw [GLFenceEGL.destroy_eq, issuedSince_append]
  by_cases h1 : env.display.eglCheckVersion 1 5 = true <;>
    by_cases h3 : env.driver.eglGetProcAddress "eglDestroySyncKHR" = true <;>
    simp [h1, hp, h3, DriverCall.extensionName]

theorem GLFenceEGL.clientWait_calls_available (env : Env) (self : GLFenceEGL)
    (log : List DriverCall) (hp : env.build.EGL_EGLEXT_PROTOTYPES = false) :
    ∀ c ∈ issuedSince log (GLFenceEGL.clientWait env self log).2, ∀ name,
      DriverCall.extensionName c = some name → env.driver.eglGetProcAddress name = true := by
  rw [GLFenceEGL.clientWait_eq]
  simp only [issuedSince_append]
  by_cases h1 : env.display.eglCheckVersion 1 5 = true <;>
    by_cases h3 : env.driver.eglGetProcAddress "eglClientWaitSyncKHR" = true <;>
    simp [h1, hp, h3, DriverCall.extensionName]

theorem GLFenceEGL.serverWait_calls_available (env : Env) (self : GLFenceEGL)
    (log : List DriverCall) (hp : env.build.EGL_EGLEXT_PROTOTYPES = false) :
    ∀ c ∈ issuedSince log (GLFenceEGL.serverWait env self log).2, ∀ name,
      DriverCall.extensionName c = some name → env.driver.eglGetProcAddress name = true := by
  by_cases hs : env.capabilities.eglServerWaitSupported = true
  · rw [GLFenceEGL.serverWait_eq_of_supported env self log hs]
    simp only [issuedSince_append]
    by_cases h1 : env.display.eglCheckVersion 1 5 = true <;>
      by_cases h3 : env.driver.eglGetProcAddress "eglWaitSyncKHR" = true <;>
      simp [h1, hp, h3, DriverCall.extensionName]
  · rw [GLFenceEGL.serverWait_eq_of_unsupported env self log (by simpa using hs)]
    exact GLFenceEGL.clientWait_calls_available env self log hp

theorem GLFenceEGL.exportFD_calls_available (env : Env) (self : GLFenceEGL)
    (log : List DriverCall) (hp : env.build.EGL_EGLEXT_PROTOTYPES = false) :
    ∀ c ∈ issuedSince log (GLFenceEGL.exportFD env self log).2.2, ∀ name,
      DriverCall.extensionName c = some name → env.driver.eglGetProcAddress name = true := by
  rw [GLFenceEGL.exportFD_log]
  simp only [issuedSince_append]
  by_cases h1 : self.m_isExportable = true <;>
    by_cases h3 : env.driver.eglGetProcAddress "eglDupNativeFenceFDANDROID" = true <;>
    simp [h1, hp, h3, DriverCall.extensionName]

/-- C4: in a build that obtains its extension entry points by
`eglGetProcAddress` (the only way an entry point can be missing: core EGL 1.5
functions and, under `EGL_EGLEXT_PROTOTYPES`, the extension functions are linked
directly), a missing entry point makes the operation that needs it degrade.
Below EGL 1.5: creation returns null, and the destructor, `clientWait` and
`serverWait` issue nothing but the failed lookup.  `exportFD` returns the empty
descriptor and leaves the fence unchanged.  No operation ever issues a call
through an extension entry point whose lookup fails. -/
theorem missing_entry_point_degrades (env : Env) (self : GLFenceEGL) (log : List DriverCall)
    (type : EGLenum) (attributes : List EGLAttrib)
    (hp : env.build.EGL_EGLEXT_PROTOTYPES = false) :
    (env.display.eglCheckVersion 1 5 = false →
      (env.driver.eglGetProcAddress "eglCreateSyncKHR" = false →
        createEGLFence env type attributes log =
          (none, log ++ [DriverCall.eglGetProcAddress "eglCreateSyncKHR"])) ∧
      (env.driver.eglGetProcAddress "eglDestroySyncKHR" = false →
        GLFenceEGL.destroy env self log =
          log ++ [DriverCall.eglGetProcAddress "eglDestroySyncKHR"]) ∧
      (env.driver.eglGetProcAddress "eglClientWaitSyncKHR" = false →
        GLFenceEGL.clientWait env self log =
          (self, log ++ [DriverCall.eglGetProcAddress "eglClientWaitSyncKHR"])) ∧
      (env.driver.eglGetProcAddress (serverWaitExtensionName env) = false →
        GLFenceEGL.serverWait env self log =
          (self, log ++ [DriverCall.eglGetProcAddress (serverWaitExtensionName env)]))) ∧
    (env.driver.eglGetProcAddress "eglDupNativeFenceFDANDROID" = false →
      GLFenceEGL.exportFD env self log =
        (UnixFileDescriptor.empty, self,
          log ++ (if self.m_isExportable = true
            then [DriverCall.eglGetProcAddress "eglDupNativeFenceFDANDROID"] else []))) ∧
    (∀ c name, DriverCall.extensionName c = some name →
      (c ∈ issuedSince log (createEGLFence env type attributes log).2 ∨
        c ∈ issuedSince log (GLFenceEGL.destroy env self log) ∨
        c ∈ issuedSince log (GLFenceEGL.clientWait env self log).2 ∨
        c ∈ issuedSince log (GLFenceEGL.serverWait env self log).2 ∨
        c ∈ issuedSince log (GLFenceEGL.exportFD env self log).2.2) →
      env.driver.eglGetProcAddress name = true) := by
  refine ⟨?_, ?_, ?_⟩
  · intro hv
    refine ⟨createEGLFence_of_missing env type attributes log hv hp, ?_, ?_, ?_⟩
    · intro hm
      simp [GLFenceEGL.destroy_eq, hv, hp, hm]
    · intro hm
      simp [GLFenceEGL.clientWait_eq, hv, hp, hm]
    · intro hm
      by_cases hs : env.capabilities.eglServerWaitSupported = true
      · simp only [serverWaitExtensionName, hs, if_true] at hm ⊢
        simp [GLFenceEGL.serverWait_eq_of_supported env self log hs, hv, hp, hm]
      · have hs2 : env.capabilities.eglServerWaitSupported = false := by simpa using hs
        simp only [serverWaitExtensionName, hs2] at hm ⊢
        simp at hm
        simp [GLFenceEGL.serverWait_eq_of_unsupported env self log hs2,
          GLFenceEGL.clientWait_eq, hv, hp, hm]
  · intro hm
    by_cases h1 : self.m_isExportable = true <;> simp [GLFenceEGL.exportFD, h1, hp, hm]
  · intro c name hn hc
    rcases hc with hc | hc | hc | hc | hc
    · exact createEGLFence_calls_available env type attributes log hp c hc name hn
    · exact GLFenceEGL.destroy_calls_available env self log hp c hc name hn
    · exact GLFenceEGL.clientWait_calls_available env self log hp c hc name hn
    · exact GLFenceEGL.serverWait_calls_available env self log hp c hc name hn
    · exact GLFenceEGL.exportFD_calls_available env self log hp c hc name hn

theorem missing_entry_point_degrades_witness :
    envMissing.build.EGL_EGLEXT_PROTOTYPES = false ∧
    envMissing.display.eglCheckVersion 1 5 = false ∧
    GLFenceEGL.create envMissing [] = (none, [DriverCall.eglGetProcAddress "eglCreateSyncKHR"]) ∧
    GLFenceEGL.destroy envMissing nativeFence [] =
      [DriverCall.eglGetProcAddress "eglDestroySyncKHR"] ∧
    GLFenceEGL.clientWait envMissing nativeFence [] =
      (nativeFence, [DriverCall.eglGetProcAddress "eglClientWaitSyncKHR"]) ∧
    GLFenceEGL.serverWait envMissing nativeFence [] =
      (nativeFence, [DriverCall.eglGetProcAddress "eglWaitSyncKHR"]) ∧
    GLFenceEGL.exportFD envMissing nativeFence [] =
      (UnixFileDescriptor.empty, nativeFence,
        [DriverCall.eglGetProcAddress "eglDupNativeFenceFDANDROID"]) :=
  ⟨rfl, rfl,
    ((missing_entry_point_degrades envMissing nativeFence [] EGL_SYNC_FENCE_KHR [] rfl).1 rfl).1 rfl,
    ((missing_entry_point_degrades envMissing nativeFence [] EGL_SYNC_FENCE_KHR [] rfl).1 rfl).2.1 rfl,
    ((missing_entry_point_degrades envMissing nativeFence [] EGL_SYNC_FENCE_KHR [] rfl).1 rfl).2.2.1
      rfl,
    ((missing_entry_point_degrades envMissing nativeFence [] EGL_SYNC_FENCE_KHR [] rfl).1 rfl).2.2.2
      rfl,
    (missing_entry_point_degrades envMissing nativeFence [] EGL_SYNC_FENCE_KHR [] rfl).2.1 rfl⟩

/-- C5, as stated, fails: with EGL 1.4, entry points looked up at run time, the
server-wait capability reported and a driver that has `EGL_KHR_fence_sync` but
no `eglWaitSyncKHR`, `create` returns a fence, and `serverWait` on that fence
returns after the failed lookup alone: it issues neither a server-side wait nor
a blocking client wait on the fence's handle. -/
theorem serverWait_skips_wait_when_lookup_fails :
    GLFenceEGL.create envFenceSyncOnly [] =
      (some { m_sync := 201, m_isExportable := false },
        [DriverCall.eglGetProcAddress "eglCreateSyncKHR",
          DriverCall.eglCreateSyncKHR 1 EGL_SYNC_FENCE_KHR none, DriverCall.glFlush]) ∧
    GLFenceEGL.serverWait envFenceSyncOnly { m_sync := 201, m_isExportable := false }
        (GLFenceEGL.create envFenceSyncOnly []).2 =
      ({ m_sync := 201, m_isExportable := false },
        (GLFenceEGL.create envFenceSyncOnly []).2 ++
          [DriverCall.eglGetProcAddress "eglWaitSyncKHR"]) ∧
    ¬ ∃ c ∈ issuedSince (GLFenceEGL.create envFenceSyncOnly []).2
        (GLFenceEGL.serverWait envFenceSyncOnly { m_sync := 201, m_isExportable := false }
          (GLFenceEGL.create envFenceSyncOnly []).2).2,
      DriverCall.isServerWaitOn 201 c = true ∨ DriverCall.isBlockingClientWaitOn 201 c = true := by
  decide

/-- C5 (amended): `serverWait` issues a server-side wait or an infinite-timeout
client wait on the fence's handle exactly when the wait entry point it
dispatches to is available: the display reports EGL 1.5, or the extension
prototypes are compiled in, or the lookup of the entry point (`eglWaitSyncKHR`
with the server-wait capability, `eglClientWaitSyncKHR` without it) succeeds.
With the capability the wait is the server-side one, without it the blocking
client wait. -/
theorem serverWait_waits_iff_entry_point_available (env : Env) (self : GLFenceEGL)
    (log : List DriverCall) :
    ((∃ c ∈ issuedSince log (GLFenceEGL.serverWait env self log).2,
        DriverCall.isServerWaitOn self.m_sync c = true ∨
        DriverCall.isBlockingClientWaitOn self.m_sync c = true) ↔
      (env.display.eglCheckVersion 1 5 = true ∨ env.build.EGL_EGLEXT_PROTOTYPES = true ∨
        env.driver.eglGetProcAddress (serverWaitExtensionName env) = true)) ∧
    ((env.display.eglCheckVersion 1 5 = true ∨ env.build.EGL_EGLEXT_PROTOTYPES = true ∨
        env.driver.eglGetProcAddress (serverWaitExtensionName env) = true) →
      ∃ c ∈ issuedSince log (GLFenceEGL.serverWait env self log).2,
        if env.capabilities.eglServerWaitSupported = true
        then DriverCall.isServerWaitOn self.m_sync c = true
        else DriverCall.isBlockingClientWaitOn self.m_sync c = true) := by
  by_cases hs : env.capabilities.eglServerWaitSupported = true
  · rw [GLFenceEGL.serverWait_eq_of_supported env self log hs]
    simp only [issuedSince_append, serverWaitExtensionName, hs, if_true]
    by_cases h1 : env.display.eglCheckVersion 1 5 = true <;>
      by_cases h2 : env.build.EGL_EGLEXT_PROTOTYPES = true <;>
      by_cases h3 : env.driver.eglGetProcAddress "eglWaitSyncKHR" = true <;>
      simp [h1, h2, h3, DriverCall.isServerWaitOn, DriverCall.isBlockingClientWaitOn]
  · have hs2 : env.capabilities.eglServerWaitSupported = false := by simpa using hs
    rw [GLFenceEGL.serverWait_eq_of_unsupported env self log hs2, GLFenceEGL.clientWait_eq]
    simp only [issuedSince_append, serverWaitExtensionName, hs2]
    by_cases h1 : env.display.eglCheckVersion 1 5 = true <;>
      by_cases h2 : env.build.EGL_EGLEXT_PROTOTYPES = true <;>
      by_cases h3 : env.driver.eglGetProcAddress "eglClientWaitSyncKHR" = true <;>
      simp [h1, h2, h3, DriverCall.isServerWaitOn, DriverCall.isBlockingClientWaitOn]

theorem serverWait_waits_iff_entry_point_available_witness :
    (envLookup.display.eglCheckVersion 1 5 = true ∨ envLookup.build.EGL_EGLEXT_PROTOTYPES = true ∨
      envLookup.driver.eglGetProcAddress (serverWaitExtensionName envLookup) = true) ∧
    GLFenceEGL.serverWait envLookup plainFence [] =
      (plainFence, [DriverCall.eglGetProcAddress "eglWaitSyncKHR",
        DriverCall.eglWaitSyncKHR 1 7 0]) ∧
    ∃ c ∈ issuedSince [] (GLFenceEGL.serverWait envLookup plainFence []).2,
      DriverCall.isServerWaitOn plainFence.m_sync c = true ∨
      DriverCall.isBlockingClientWaitOn plainFence.m_sync c = true :=
  ⟨Or.inr (Or.inr rfl), by decide,
    (serverWait_waits_iff_entry_point_available envLookup plainFence []).1.mpr
      (Or.inr (Or.inr rfl))⟩

/-- C9, as stated, fails: a successful `create` on an EGL 1.5 display issues
`eglCreateSync` first and `glFlush` second, so no flush precedes the call that
creates the sync object. -/
theorem create_flushes_after_creating :
    GLFenceEGL.create envCore [] =
      (some { m_sync := 100, m_isExportable := false },
        [DriverCall.eglCreateSync 1 EGL_SYNC_FENCE_KHR none, DriverCall.glFlush]) ∧
    flushBeforeCreation (issuedSince [] (GLFenceEGL.create envCore []).2) = false := by
  decide

/-- C9 (amended): in the sequence of driver calls made by a successful fence
creation, the call that creates the sync object (preceded only by its lookup,
when the entry point is looked up) comes before the command flush: `glFlush` is
the last call, issued right after the creating call, and no flush precedes the
creation.  Stated for the factory at every sync type and attribute list;
`create` is the factory at `EGL_SYNC_FENCE_KHR` with no attributes. -/
theorem createEGLFence_flush_follows_creation (env : Env) (type : EGLenum)
    (attributes : List EGLAttrib) (log : List DriverCall) (f : GLFenceEGL)
    (h : (createEGLFence env type attributes log).1 = some f) :
    issuedSince log (createEGLFence env type attributes log).2 =
      (if env.display.eglCheckVersion 1 5 then
        [DriverCall.eglCreateSync env.display.eglDisplay type (dataOrNull attributes)]
      else if env.build.EGL_EGLEXT_PROTOTYPES then
        [DriverCall.eglCreateSyncKHR env.display.eglDisplay type
          (dataOrNull (attributes.map toEGLint))]
      else
        [DriverCall.eglGetProcAddress "eglCreateSyncKHR",
          DriverCall.eglCreateSyncKHR env.display.eglDisplay type
            (dataOrNull (attributes.map toEGLint))]) ++ [DriverCall.glFlush] ∧
    flushBeforeCreation (issuedSince log (createEGLFence env type attributes log).2) = false := by
  have hlog : issuedSince log (createEGLFence env type attributes log).2 =
      (if env.display.eglCheckVersion 1 5 then
        [DriverCall.eglCreateSync env.display.eglDisplay type (dataOrNull attributes)]
      else if env.build.EGL_EGLEXT_PROTOTYPES then
        [DriverCall.eglCreateSyncKHR env.display.eglDisplay type
          (dataOrNull (attributes.map toEGLint))]
      else
        [DriverCall.eglGetProcAddress "eglCreateSyncKHR",
          DriverCall.eglCreateSyncKHR env.display.eglDisplay type
            (dataOrNull (attributes.map toEGLint))]) ++ [DriverCall.glFlush] := by
    rw [createEGLFence_log, createEGLFence.dispatch_log, List.append_assoc, issuedSince_append]
    by_cases h1 : env.display.eglCheckVersion 1 5 = true <;>
      by_cases h2 : env.build.EGL_EGLEXT_PROTOTYPES = true <;>
      by_cases h3 : env.driver.eglGetProcAddress "eglCreateSyncKHR" = true <;>
      simp [h, h1, h2, h3]
    have hm := createEGLFence_of_missing env type attributes log (by simpa using h1)
      (by simpa using h2) (by simpa using h3)
    rw [hm] at h
    simp at h
  refine ⟨hlog, ?_⟩
  rw [hlog]
  by_cases h1 : env.display.eglCheckVersion 1 5 = true <;>
    by_cases h2 : env.build.EGL_EGLEXT_PROTOTYPES = true <;>
    simp [h1, h2, flushBeforeCreation, DriverCall.isCreate]

theorem createEGLFence_flush_follows_creation_witness :
    (createEGLFence envLookup EGL_SYNC_FENCE_KHR [] []).1 =
      some { m_sync := 201, m_isExportable := false } ∧
    issuedSince [] (createEGLFence envLookup EGL_SYNC_FENCE_KHR [] []).2 =
      [DriverCall.eglGetProcAddress "eglCreateSyncKHR",
        DriverCall.eglCreateSyncKHR 1 EGL_SYNC_FENCE_KHR none, DriverCall.glFlush] :=
  ⟨by decide,
    (createEGLFence_flush_follows_creation envLookup EGL_SYNC_FENCE_KHR [] []
      { m_sync := 201, m_isExportable := false } (by decide)).1⟩

/-- C6: when the display reports EGL 1.5, creation, destruction, `clientWait`
and `serverWait` (with server wait supported) issue the core call only
(`eglCreateSync`, followed by `glFlush` when it succeeds, `eglDestroySync`,
`eglClientWaitSync`, `eglWaitSync`).  A KHR extension call or a lookup is
issued by these operations only when the version check fails.  What the
extension path does to the fence is what the core path does: its destroy and
wait calls, read as core calls, carry the same display, handle, flags and
timeout, and when the extension entry point is available they are the same
calls one for one. -/
theorem version_dispatch_prefers_core (env : Env) (self : GLFenceEGL) (log : List DriverCall)
    (type : EGLenum) (attributes : List EGLAttrib) :
    (env.display.eglCheckVersion 1 5 = true →
      issuedSince log (createEGLFence env type attributes log).2 =
        DriverCall.eglCreateSync env.display.eglDisplay type (dataOrNull attributes) ::
          (if (createEGLFence env type attributes log).1 = none then [] else [DriverCall.glFlush]) ∧
      GLFenceEGL.destroy env self log =
        log ++ [DriverCall.eglDestroySync env.display.eglDisplay self.m_sync] ∧
      GLFenceEGL.clientWait env self log =
        (self, log ++ [DriverCall.eglClientWaitSync env.display.eglDisplay self.m_sync 0
          EGL_FOREVER]) ∧
      (env.capabilities.eglServerWaitSupported = true →
        GLFenceEGL.serverWait env self log =
          (self, log ++ [DriverCall.eglWaitSync env.display.eglDisplay self.m_sync 0]))) ∧
    (∀ c, DriverCall.isLegacy c = true →
      (c ∈ issuedSince log (createEGLFence env type attributes log).2 ∨
        c ∈ issuedSince log (GLFenceEGL.destroy env self log) ∨
        c ∈ issuedSince log (GLFenceEGL.clientWait env self log).2 ∨
        c ∈ issuedSince log (GLFenceEGL.serverWait env self log).2) →
      env.display.eglCheckVersion 1 5 = false) ∧
    (∀ c ∈ issuedSince log (GLFenceEGL.destroy (env.withVersionCheck false) self log),
      ∀ core, DriverCall.coreForm c = some core →
        core ∈ issuedSince log (GLFenceEGL.destroy (env.withVersionCheck true) self log)) ∧
    (∀ c ∈ issuedSince log (GLFenceEGL.clientWait (env.withVersionCheck false) self log).2,
      ∀ core, DriverCall.coreForm c = some core →
        core ∈ issuedSince log (GLFenceEGL.clientWait (env.withVersionCheck true) self log).2) ∧
    (∀ c ∈ issuedSince log (GLFenceEGL.serverWait (env.withVersionCheck false) self log).2,
      ∀ core, DriverCall.coreForm c = some core →
        core ∈ issuedSince log (GLFenceEGL.serverWait (env.withVersionCheck true) self log).2) ∧
    (∀ b, ∀ c ∈ issuedSince log (createEGLFence (env.withVersionCheck b) type attributes log).2,
      ∀ target, DriverCall.createTarget c = some target →
        target = (env.display.eglDisplay, type)) ∧
    ((env.build.EGL_EGLEXT_PROTOTYPES = true ∨
        env.driver.eglGetProcAddress "eglDestroySyncKHR" = true) →
      (issuedSince log (GLFenceEGL.destroy (env.withVersionCheck false) self log)).filterMap
          DriverCall.coreForm =
        issuedSince log (GLFenceEGL.destroy (env.withVersionCheck true) self log)) ∧
    ((env.build.EGL_EGLEXT_PROTOTYPES = true ∨
        env.driver.eglGetProcAddress "eglClientWaitSyncKHR" = true) →
      (issuedSince log (GLFenceEGL.clientWait (env.withVersionCheck false) self log).2).filterMap
          DriverCall.coreForm =
        issuedSince log (GLFenceEGL.clientWait (env.withVersionCheck true) self log).2) ∧
    ((env.build.EGL_EGLEXT_PROTOTYPES = true ∨
        env.driver.eglGetProcAddress (serverWaitExtensionName env) = true) →
      (issuedSince log (GLFenceEGL.serverWait (env.withVersionCheck false) self log).2).filterMap
          DriverCall.coreForm =
        issuedSince log (GLFenceEGL.serverWait (env.withVersionCheck true) self log).2) := by
  have sw : ∀ e : Env, GLFenceEGL.serverWait e self log =
      if e.capabilities.eglServerWaitSupported = true then
        (self, log ++
          (if e.display.eglCheckVersion 1 5 then
            [DriverCall.eglWaitSync e.display.eglDisplay self.m_sync 0]
          else if e.build.EGL_EGLEXT_PROTOTYPES then
            [DriverCall.eglWaitSyncKHR e.display.eglDisplay self.m_sync 0]
          else if e.driver.eglGetProcAddress "eglWaitSyncKHR" then
            [DriverCall.eglGetProcAddress "eglWaitSyncKHR",
              DriverCall.eglWaitSyncKHR e.display.eglDisplay self.m_sync 0]
          else
            [DriverCall.eglGetProcAddress "eglWaitSyncKHR"]))
      else GLFenceEGL.clientWait e self log := by
    intro e
    by_cases hs : e.capabilities.eglServerWaitSupported = true
    · rw [GLFenceEGL.serverWait_eq_of_supported e self log hs]; simp [hs]
    · rw [GLFenceEGL.serverWait_eq_of_unsupported e self log (by simpa using hs)]; simp [hs]
  refine ⟨?_, ?_, ?_, ?_, ?_, ?_, ?_, ?_, ?_⟩
  · intro hv
    refine ⟨?_, ?_, ?_, ?_⟩
    · rw [createEGLFence_log, createEGLFence.dispatch_log, List.append_assoc, issuedSince_append]
      simp [hv]
    · simp [GLFenceEGL.destroy_eq, hv]
    · simp [GLFenceEGL.clientWait_eq, hv]
    · intro hs
      simp [GLFenceEGL.serverWait_eq_of_supported env self log hs, hv]
  · intro c hc hmem
    by_contra hv
    have hv : env.display.eglCheckVersion 1 5 = true := by simpa using hv
    have h1 : ∀ c ∈ issuedSince log (createEGLFence env type attributes log).2,
        DriverCall.isLegacy c = false := by
      rw [createEGLFence_log, createEGLFence.dispatch_log, List.append_assoc, issuedSince_append]
      by_cases h4 : (createEGLFence env type attributes log).1 = none <;>
        simp [hv, h4, DriverCall.isLegacy]
    have h2 : ∀ c ∈ issuedSince log (GLFenceEGL.destroy env self log),
        DriverCall.isLegacy c = false := by
      rw [GLFenceEGL.destroy_eq, issuedSince_append]
      simp [hv, DriverCall.isLegacy]
    have h3 : ∀ c ∈ issuedSince log (GLFenceEGL.clientWait env self log).2,
        DriverCall.isLegacy c = false := by
      rw [GLFenceEGL.clientWait_eq]
      simp [issuedSince_append, hv, DriverCall.isLegacy]
    have h4 : ∀ c ∈ issuedSince log (GLFenceEGL.serverWait env self log).2,
        DriverCall.isLegacy c = false := by
      rw [sw, GLFenceEGL.clientWait_eq]
      by_cases hs : env.capabilities.eglServerWaitSupported = true <;>
        simp [issuedSince_append, hv, hs, DriverCall.isLegacy]
    rcases hmem with h | h | h | h
    · rw [h1 c h] at hc; exact absurd hc (by decide)
    · rw [h2 c h] at hc; exact absurd hc (by decide)
    · rw [h3 c h] at hc; exact absurd hc (by decide)
    · rw [h4 c h] at hc; exact absurd hc (by decide)
  · rw [GLFenceEGL.destroy_eq, GLFenceEGL.destroy_eq, issuedSince_append, issuedSince_append]
    by_cases h2 : env.build.EGL_EGLEXT_PROTOTYPES = true <;>
      by_cases h3 : env.driver.eglGetProcAddress "eglDestroySyncKHR" = true <;>
      simp [Env.withVersionCheck, h2, h3, DriverCall.coreForm]
  · rw [GLFenceEGL.clientWait_eq, GLFenceEGL.clientWait_eq]
    simp only [issuedSince_append]
    by_cases h2 : env.build.EGL_EGLEXT_PROTOTYPES = true <;>
      by_cases h3 : env.driver.eglGetProcAddress "eglClientWaitSyncKHR" = true <;>
      simp [Env.withVersionCheck, h2, h3, DriverCall.coreForm, EGL_FOREVER, EGL_FOREVER_KHR]
  · rw [sw, sw, GLFenceEGL.clientWait_eq, GLFenceEGL.clientWait_eq]
    by_cases hs : env.capabilities.eglServerWaitSupported = true <;>
      by_cases h2 : env.build.EGL_EGLEXT_PROTOTYPES = true <;>
      by_cases h3 : env.driver.eglGetProcAddress "eglClientWaitSyncKHR" = true <;>
      by_cases h5 : env.driver.eglGetProcAddress "eglWaitSyncKHR" = true <;>
      simp [Env.withVersionCheck, hs, h2, h3, h5, issuedSince_append, DriverCall.coreForm,
        EGL_FOREVER, EGL_FOREVER_KHR]
  · intro b
    rw [createEGLFence_log, createEGLFence.dispatch_log, List.append_assoc, issuedSince_append]
    cases b <;>
      by_cases h2 : env.build.EGL_EGLEXT_PROTOTYPES = true <;>
      by_cases h3 : env.driver.eglGetProcAddress "eglCreateSyncKHR" = true <;>
      simp [Env.withVersionCheck, h2, h3, DriverCall.createTarget]
  · intro ha
    rw [GLFenceEGL.destroy_eq, GLFenceEGL.destroy_eq, issuedSince_append, issuedSince_append]
    by_cases h2 : env.build.EGL_EGLEXT_PROTOTYPES = true <;>
      by_cases h3 : env.driver.eglGetProcAddress "eglDestroySyncKHR" = true <;>
      simp_all [Env.withVersionCheck, DriverCall.coreForm]
  · intro ha
    rw [GLFenceEGL.clientWait_eq, GLFenceEGL.clientWait_eq]
    simp only [issuedSince_append]
    by_cases h2 : env.build.EGL_EGLEXT_PROTOTYPES = true <;>
      by_cases h3 : env.driver.eglGetProcAddress "eglClientWaitSyncKHR" = true <;>
      simp_all [Env.withVersionCheck, DriverCall.coreForm, EGL_FOREVER, EGL_FOREVER_KHR]
  · intro ha
    rw [sw, sw, GLFenceEGL.clientWait_eq, GLFenceEGL.clientWait_eq]
    by_cases hs : env.capabilities.eglServerWaitSupported = true <;>
      by_cases h2 : env.build.EGL_EGLEXT_PROTOTYPES = true <;>
      by_cases h3 : env.driver.eglGetProcAddress "eglClientWaitSyncKHR" = true <;>
      by_cases h5 : env.driver.eglGetProcAddress "eglWaitSyncKHR" = true <;>
      simp_all [Env.withVersionCheck, serverWaitExtensionName, issuedSince_append,
        DriverCall.coreForm, EGL_FOREVER, EGL_FOREVER_KHR]

theorem version_dispatch_prefers_core_witness :
    envCore.display.eglCheckVersion 1 5 = true ∧
    envCore.capabilities.eglServerWaitSupported = true ∧
    issuedSince [] (createEGLFence envCore EGL_SYNC_FENCE_KHR [] []).2 =
      [DriverCall.eglCreateSync 1 EGL_SYNC_FENCE_KHR none, DriverCall.glFlush] ∧
    GLFenceEGL.destroy envCore plainFence [] = [DriverCall.eglDestroySync 1 7] ∧
    GLFenceEGL.clientWait envCore plainFence [] =
      (plainFence, [DriverCall.eglClientWaitSync 1 7 0 EGL_FOREVER]) ∧
    GLFenceEGL.serverWait envCore plainFence [] = (plainFence, [DriverCall.eglWaitSync 1 7 0]) ∧
    (issuedSince [] (GLFenceEGL.serverWait (envLookup.withVersionCheck false) plainFence []).2).filterMap
        DriverCall.coreForm =
      issuedSince [] (GLFenceEGL.serverWait (envLookup.withVersionCheck true) plainFence []).2 :=
  ⟨rfl, rfl,
    ((version_dispatch_prefers_core envCore plainFence [] EGL_SYNC_FENCE_KHR []).1 rfl).1,
    ((version_dispatch_prefers_core envCore plainFence [] EGL_SYNC_FENCE_KHR []).1 rfl).2.1,
    ((version_dispatch_prefers_core envCore plainFence [] EGL_SYNC_FENCE_KHR []).1 rfl).2.2.1,
    ((version_dispatch_prefers_core envCore plainFence [] EGL_SYNC_FENCE_KHR []).1 rfl).2.2.2 rfl,
    (version_dispatch_prefers_core envLookup plainFence [] EGL_SYNC_FENCE_KHR []).2.2.2.2.2.2.2.2
      (Or.inr rfl)⟩

/-- C7, as stated, fails: in a build that looks the export entry point up, on a
driver where that lookup fails, `createExportable` returns an exportable fence,
and `exportFD` on that fence returns the empty descriptor after the failed
lookup alone: no duplication is performed. -/
theorem exportFD_exportable_without_duplication :
    GLFenceEGL.createExportable envFenceSyncOnly [] =
      (some { m_sync := 201, m_isExportable := true },
        [DriverCall.eglGetProcAddress "eglCreateSyncKHR",
          DriverCall.eglCreateSyncKHR 1 EGL_SYNC_NATIVE_FENCE_ANDROID none, DriverCall.glFlush]) ∧
    GLFenceEGL.exportFD envFenceSyncOnly { m_sync := 201, m_isExportable := true }
        (GLFenceEGL.createExportable envFenceSyncOnly []).2 =
      (UnixFileDescriptor.empty, { m_sync := 201, m_isExportable := true },
        (GLFenceEGL.createExportable envFenceSyncOnly []).2 ++
          [DriverCall.eglGetProcAddress "eglDupNativeFenceFDANDROID"]) ∧
    ¬ ∃ c ∈ issuedSince (GLFenceEGL.createExportable envFenceSyncOnly []).2
        (GLFenceEGL.exportFD envFenceSyncOnly { m_sync := 201, m_isExportable := true }
          (GLFenceEGL.createExportable envFenceSyncOnly []).2).2.2,
      DriverCall.isDuplication c = true := by
  decide

/-- C7 (amended): for every exportable fence, when the export entry point is
available (extension prototypes compiled in, or the lookup of
`eglDupNativeFenceFDANDROID` succeeds), each `exportFD` call performs its own
driver duplication on the fence's handle, returns the descriptor the driver
handed back for that call, and leaves the fence unchanged.  Two successive
calls therefore issue two duplications, and the second call is the call a fresh
`exportFD` would make on the same fence at that point. -/
theorem exportFD_duplicates_on_each_call (env : Env) (self : GLFenceEGL)
    (log : List DriverCall) (hx : self.m_isExportable = true)
    (ha : env.build.EGL_EGLEXT_PROTOTYPES = true ∨
      env.driver.eglGetProcAddress "eglDupNativeFenceFDANDROID" = true) :
    GLFenceEGL.exportFD env self log =
      (UnixFileDescriptor.adopt
          (env.driver.eglDupNativeFenceFDANDROID (log ++ exportFDLookup env)
            env.display.eglDisplay self.m_sync),
        self,
        log ++ exportFDLookup env ++
          [DriverCall.eglDupNativeFenceFDANDROID env.display.eglDisplay self.m_sync]) ∧
    GLFenceEGL.exportFD env (GLFenceEGL.exportFD env self log).2.1
        (GLFenceEGL.exportFD env self log).2.2 =
      (UnixFileDescriptor.adopt
          (env.driver.eglDupNativeFenceFDANDROID
            ((GLFenceEGL.exportFD env self log).2.2 ++ exportFDLookup env)
            env.display.eglDisplay self.m_sync),
        self,
        (GLFenceEGL.exportFD env self log).2.2 ++ exportFDLookup env ++
          [DriverCall.eglDupNativeFenceFDANDROID env.display.eglDisplay self.m_sync]) ∧
    (issuedSince log
        (GLFenceEGL.exportFD env (GLFenceEGL.exportFD env self log).2.1
          (GLFenceEGL.exportFD env self log).2.2).2.2).filter DriverCall.isDuplication =
      [DriverCall.eglDupNativeFenceFDANDROID env.display.eglDisplay self.m_sync,
        DriverCall.eglDupNativeFenceFDANDROID env.display.eglDisplay self.m_sync] := by
  have one : ∀ l : List DriverCall, GLFenceEGL.exportFD env self l =
      (UnixFileDescriptor.adopt
          (env.driver.eglDupNativeFenceFDANDROID (l ++ exportFDLookup env)
            env.display.eglDisplay self.m_sync),
        self,
        l ++ exportFDLookup env ++
          [DriverCall.eglDupNativeFenceFDANDROID env.display.eglDisplay self.m_sync]) := by
    intro l
    by_cases h2 : env.build.EGL_EGLEXT_PROTOTYPES = true
    · simp [GLFenceEGL.exportFD, exportFDLookup, hx, h2]
    · have h3 : env.driver.eglGetProcAddress "eglDupNativeFenceFDANDROID" = true := by
        rcases ha with h | h
        · exact absurd h h2
        · exact h
      simp [GLFenceEGL.exportFD, exportFDLookup, hx, h2, h3]
  refine ⟨one log, ?_, ?_⟩
  · rw [one log]
    exact one _
  · rw [one log]
    simp only []
    rw [one _]
    simp only [List.append_assoc, issuedSince_append]
    by_cases h2 : env.build.EGL_EGLEXT_PROTOTYPES = true <;>
      simp [exportFDLookup, h2, DriverCall.isDuplication]

theorem exportFD_duplicates_on_each_call_witness :
    nativeFence.m_isExportable = true ∧
    (envLookup.build.EGL_EGLEXT_PROTOTYPES = true ∨
      envLookup.driver.eglGetProcAddress "eglDupNativeFenceFDANDROID" = true) ∧
    GLFenceEGL.exportFD envLookup nativeFence [] =
      (UnixFileDescriptor.adopt 11, nativeFence,
        [DriverCall.eglGetProcAddress "eglDupNativeFenceFDANDROID",
          DriverCall.eglDupNativeFenceFDANDROID 1 9]) ∧
    GLFenceEGL.exportFD envLookup (GLFenceEGL.exportFD envLookup nativeFence []).2.1
        (GLFenceEGL.exportFD envLookup nativeFence []).2.2 =
      (UnixFileDescriptor.adopt 13, nativeFence,
        [DriverCall.eglGetProcAddress "eglDupNativeFenceFDANDROID",
          DriverCall.eglDupNativeFenceFDANDROID 1 9,
          DriverCall.eglGetProcAddress "eglDupNativeFenceFDANDROID",
          DriverCall.eglDupNativeFenceFDANDROID 1 9]) :=
  ⟨rfl, Or.inr rfl,
    (exportFD_duplicates_on_each_call envLookup nativeFence [] rfl (Or.inr rfl)).1,
    (exportFD_duplicates_on_each_call envLookup nativeFence [] rfl (Or.inr rfl)).2.1⟩

end WebCore

/-! ## The compositing scene's active flag -/

namespace WebKit

theorem CoordinatedGraphicsScene.foldl_setActive (self : CoordinatedGraphicsScene)
    (actives : List Bool) :
    actives.foldl CoordinatedGraphicsScene.setActive self =
      { self with m_isActive := actives.getLast?.getD self.m_isActive } := by
  induction actives using List.reverseRecOn with
  | nil => rfl
  | append_singleton l a ih =>
    simp [List.foldl_append, CoordinatedGraphicsScene.setActive, ih]

theorem SceneCall.run_isActive (self : CoordinatedGraphicsScene) (calls : List SceneCall) :
    (SceneCall.run self calls).m_isActive =
      (SceneCall.activeArgs calls).getLast?.getD self.m_isActive := by
  induction calls using List.reverseRecOn with
  | nil => rfl
  | append_singleton l c ih =>
    cases c with
    | setActive active =>
      simp [SceneCall.run, SceneCall.activeArgs, List.foldl_append, SceneCall.apply,
        CoordinatedGraphicsScene.setActive, List.filterMap_append]
    | setDamagePropagation p =>
      have ih2 := ih
      simp only [SceneCall.run, SceneCall.activeArgs] at ih2
      simp [SceneCall.run, SceneCall.activeArgs, List.foldl_append, SceneCall.apply,
        CoordinatedGraphicsScene.setDamagePropagation, List.filterMap_append, ih2]

/-- C8: a newly constructed scene is inactive; after any sequence of `setActive`
calls `isActive` returns the argument of the most recent call (the initial
value when there was none); `setActive` changes no other member of the scene;
and of the two mutators the header defines, only `setActive` has an effect on
what `isActive` returns. -/
theorem isActive_follows_setActive (client : Option Nat) (self : CoordinatedGraphicsScene)
    (actives : List Bool) (active : Bool) (calls : List SceneCall) :
    (CoordinatedGraphicsScene.construct client).isActive = false ∧
    (actives.foldl CoordinatedGraphicsScene.setActive
        (CoordinatedGraphicsScene.construct client)).isActive = actives.getLast?.getD false ∧
    (actives.foldl CoordinatedGraphicsScene.setActive self).isActive =
      actives.getLast?.getD self.isActive ∧
    ((actives ++ [active]).foldl CoordinatedGraphicsScene.setActive self).isActive = active ∧
    (self.setActive active).isActive = active ∧
    (self.setActive active).m_client = self.m_client ∧
    (self.setActive active).m_rootLayer = self.m_rootLayer ∧
    (self.setActive active).m_rootLayerID = self.m_rootLayerID ∧
    (self.setActive active).m_backingStores = self.m_backingStores ∧
    (self.setActive active).m_damagePropagation = self.m_damagePropagation ∧
    (self.setActive active).m_nicosia = self.m_nicosia ∧
    (self.setActive active).m_textureMapper = self.m_textureMapper ∧
    (self.setActive active).m_fpsCounter = self.m_fpsCounter ∧
    actives.foldl CoordinatedGraphicsScene.setActive self =
      { self with m_isActive := actives.getLast?.getD self.m_isActive } ∧
    (SceneCall.run self calls).isActive =
      (SceneCall.activeArgs calls).getLast?.getD self.isActive := by
  refine ⟨rfl, ?_, ?_, ?_, rfl, rfl, rfl, rfl, rfl, rfl, rfl, rfl, rfl, ?_, ?_⟩
  · rw [CoordinatedGraphicsScene.foldl_setActive]; rfl
  · rw [CoordinatedGraphicsScene.foldl_setActive]; rfl
  · rw [CoordinatedGraphicsScene.foldl_setActive]
    simp [CoordinatedGraphicsScene.isActive]
  · exact CoordinatedGraphicsScene.foldl_setActive self actives
  · exact SceneCall.run_isActive self calls

end WebKit

/-! ## Compilation of a URL-pattern component -/

namespace WebCore
namespace URLPatternUtilities

/-- The flag set `compile` builds is `componentFlags`. -/
theorem componentFlags_eq (options : URLPatternStringOptions) :
    (if options.ignoreCase then OptionSet.add [YarrFlags.UnicodeSets] YarrFlags.IgnoreCase
      else [YarrFlags.UnicodeSets]) = componentFlags options := by
  cases h : options.ignoreCase <;> simp [componentFlags, OptionSet.add, h]

/-- C10: `compile` fails with exactly the parser's exception when the parser
fails; otherwise, when the regular expression generated from the part list and
created with the flags `UnicodeSets` (plus `IgnoreCase` exactly when
`options.ignoreCase` is set) is invalid, it fails with a `TypeError`; otherwise
it succeeds, and the component's `hasRegexpGroups` flag is true if and only if
the part list contains a part of type `Regexp`. -/
theorem compile_outcome (deps : Collaborators) (input : String) (type : EncodingCallbackType)
    (options : URLPatternStringOptions) :
    (∀ e, deps.parse input options type = Except.error e →
      URLPatternComponent.compile deps input type options = Except.error e) ∧
    (∀ partList, deps.parse input options type = Except.ok partList →
      (deps.RegExp_create (deps.generateRegexAndNameList partList options).1
        (componentFlags options)).isValid = false →
      URLPatternComponent.compile deps input type options =
        Except.error { code := ExceptionCode.TypeError, message := invalidRegExpMessage }) ∧
    (∀ partList, deps.parse input options type = Except.ok partList →
      (deps.RegExp_create (deps.generateRegexAndNameList partList options).1
        (componentFlags options)).isValid = true →
      ∃ component,
        URLPatternComponent.compile deps input type options = Except.ok component ∧
        (component.m_hasRegexpGroups = true ↔ ∃ part ∈ partList, part.type = PartType.Regexp) ∧
        component.m_regularExpression =
          deps.RegExp_create (deps.generateRegexAndNameList partList options).1
            (componentFlags options) ∧
        component.m_patternString = deps.generatePatternString partList options ∧
        component.m_groupNameList = (deps.generateRegexAndNameList partList options).2) := by
  refine ⟨?_, ?_, ?_⟩
  · intro e he
    simp [URLPatternComponent.compile, he]
  · intro partList hp hv
    simp only [URLPatternComponent.compile, hp, componentFlags_eq, hv]
    rfl
  · intro partList hp hv
    refine ⟨{ m_patternString := deps.generatePatternString partList options
              m_regularExpression :=
                deps.RegExp_create (deps.generateRegexAndNameList partList options).1
                  (componentFlags options)
              m_groupNameList := (deps.generateRegexAndNameList partList options).2
              m_hasRegexpGroups := partList.any fun part => decide (part.type = PartType.Regexp) },
      ?_, ?_, rfl, rfl, rfl⟩
    · simp only [URLPatternComponent.compile, hp, componentFlags_eq, hv]
      rfl
    · simp

theorem compile_outcome_witness :
    URLPatternComponent.compile sampleCollaborators "a" 0 (sampleOptions false) =
      Except.error { code := ExceptionCode.other 12, message := "parse error" } ∧
    URLPatternComponent.compile sampleCollaborators "a" 1 (sampleOptions true) =
      Except.error { code := ExceptionCode.TypeError, message := invalidRegExpMessage } ∧
    ∃ component,
      URLPatternComponent.compile sampleCollaborators "a" 2 (sampleOptions false) =
        Except.ok component ∧
      (component.m_hasRegexpGroups = true ↔
        ∃ part ∈ [({ type := PartType.FixedText, value := "a" } : Part),
          { type := PartType.Regexp, value := "[a-z]+" }], part.type = PartType.Regexp) :=
  ⟨(compile_outcome sampleCollaborators "a" 0 (sampleOptions false)).1 _ rfl,
    (compile_outcome sampleCollaborators "a" 1 (sampleOptions true)).2.1 _ rfl rfl,
    Exists.elim ((compile_outcome sampleCollaborators "a" 2 (sampleOptions false)).2.2 _ rfl rfl)
      (fun component h => ⟨component, h.1, h.2.1⟩)⟩

end URLPatternUtilities
end WebCore
